import Mathlib

/-!
Shallow embedding of the weather-widget core
(src/weather-widget/scripts/weather-widget.js) and proofs about it.

Modelling conventions:
* JavaScript strings are `List Char` (`JSString`); `String.prototype.trim`,
  `includes` and the character class test of the validator are embedded as
  explicit list functions.
* JavaScript numbers are embedded as `JSNum`: an exact rational, `NaN`, or a
  signed infinity.  Where a value is statically a finite number (temperatures,
  wind fields inside payload blocks) plain `ℚ` is used.  `Math.round` is
  embedded as `jsRound`, an exact implementation of floor(q + 1/2), which is
  what `Math.round` computes.
* Network I/O is embedded as an explicit oracle argument: each service
  function takes the outcome of its fetch (a thrown error or a parsed JSON
  body) and returns its result together with a Bool recording whether the
  network was reached.  JSON optionality is `Option`.
* `new Date(t)` / locale formatting are environment dependent; a payload time
  value is embedded as a `JSDate` carrying the observable fields the code
  reads from the parsed date (`getDay`, `getHours`, locale time label).
-/

attribute [local semireducible] Rat.add Rat.mul Rat.inv Rat.sub Rat.ofScientific

namespace WeatherWidget

/-- Decidable equality for Except, used to evaluate service results on
concrete inputs. -/
instance {ε α : Type} [DecidableEq ε] [DecidableEq α] : DecidableEq (Except ε α) := fun x y =>
  match x, y with
  | .ok a, .ok b =>
    match decEq a b with
    | isTrue h => isTrue (congrArg Except.ok h)
    | isFalse h => isFalse fun hc => h (Except.ok.inj hc)
  | .error a, .error b =>
    match decEq a b with
    | isTrue h => isTrue (congrArg Except.error h)
    | isFalse h => isFalse fun hc => h (Except.error.inj hc)
  | .ok _, .error _ => isFalse fun hc => Except.noConfusion hc
  | .error _, .ok _ => isFalse fun hc => Except.noConfusion hc

/-- JavaScript strings, as lists of characters. -/
abbrev JSString := List Char

/-- Whitespace for the purposes of string trimming (the ASCII part of the
set trimmed by JavaScript; none of the characters relevant to the claims is
whitespace). -/
def jsWhite (c : Char) : Bool :=
  c = ' ' || c = '\t' || c = '\n' || c = '\r' || c = Char.ofNat 11 || c = Char.ofNat 12

/-- Embedding of String.prototype.trim: drop leading and trailing whitespace. -/
def jsTrim (s : JSString) : JSString :=
  ((s.dropWhile jsWhite).reverse.dropWhile jsWhite).reverse

/-- Does the first list start with the second? (helper for substring search). -/
def leadsWith : JSString → JSString → Bool
  | _, [] => true
  | [], _ :: _ => false
  | a :: as, b :: bs => a = b && leadsWith as bs

/-- Embedding of String.prototype.includes: substring containment. -/
def jsIncludes (hay needle : JSString) : Bool :=
  if leadsWith hay needle then true
  else
    match hay with
    | [] => false
    | _ :: t => jsIncludes t needle

/-- JavaScript numbers: an exact rational, NaN, or a signed infinity. -/
inductive JSNum
  | num (q : ℚ)
  | nan
  | inf
  | neginf
deriving DecidableEq

/-- JavaScript truthiness of a number: 0 and NaN are falsy. -/
def jsTruthy : JSNum → Bool
  | .num q => q != 0
  | .nan => false
  | _ => true

/-- Embedding of isNaN on numbers. -/
def jsIsNaN : JSNum → Bool
  | .nan => true
  | _ => false

/-- JavaScript comparison a < b on numbers (false whenever NaN is involved). -/
def jsLt : JSNum → JSNum → Bool
  | .nan, _ => false
  | _, .nan => false
  | .num a, .num b => a < b
  | .num _, .inf => true
  | .num _, .neginf => false
  | .inf, _ => false
  | .neginf, .neginf => false
  | .neginf, _ => true

/-- A thrown JavaScript Error: its name and message. -/
structure JsError where
  name : JSString
  msg : JSString
deriving DecidableEq

/-- Build an Error (name "Error") from a message, as new Error(msg) does. -/
def mkError (m : JSString) : JsError :=
  { name := "Error".toList, msg := m }

/-! ## NetworkUtils.validateCityName -/

/-- The characters rejected by the validator (the regex [<>"&] plus apostrophe;
Char.ofNat 39 is the apostrophe character U+0027). -/
def dangerousChar (c : Char) : Bool :=
  c = '<' || c = '>' || c = '"' || c = Char.ofNat 39 || c = '&'

def errCityRequired : JsError := mkError "City name is required".toList

def errCityEmpty : JsError := mkError "City name cannot be empty".toList

def errCityShort : JsError := mkError "City name must be at least 2 characters long".toList

def errCityLong : JsError := mkError "City name is too long (max 100 characters)".toList

def errCityChars : JsError := mkError "City name contains invalid characters".toList

/-- Embedding of NetworkUtils.validateCityName.  The argument is the raw
value: `none` stands for a non-string argument (or a missing one), `some s`
for a string.  `!cityName` is true for a string exactly when it is empty. -/
def validateCityName (cityName : Option JSString) : Except JsError JSString :=
  match cityName with
  | none => .error errCityRequired
  | some s =>
    if s = [] then .error errCityRequired
    else
      let trimmed := jsTrim s
      if trimmed.length = 0 then .error errCityEmpty
      else if trimmed.length < 2 then .error errCityShort
      else if trimmed.length > 100 then .error errCityLong
      else if trimmed.any dangerousChar then .error errCityChars
      else .ok trimmed

/-! ## NetworkUtils.fetchWithRetry -/

/-- The visible outcome of one fetch attempt: a response (with its ok flag,
status and statusText), or a rejection carrying an error name and message
(AbortError for the timeout cancellation, TypeError for low-level network
faults, anything else otherwise). -/
inductive AttemptOutcome
  | resp (ok : Bool) (status : Nat) (statusText : JSString)
  | thrown (name msg : JSString)

/-- A successful response as returned to the caller. -/
structure FetchResponse where
  ok : Bool
  status : Nat
  statusText : JSString
deriving DecidableEq

/-- Result of the whole retry loop.  `undef` is the value of falling out of
the loop without returning or throwing (only possible with maxRetries = 0). -/
inductive RetryResult
  | success (r : FetchResponse)
  | failure (e : JsError)
  | undef
deriving DecidableEq

/-- Trace of one run of fetchWithRetry: its result, the backoff delays that
were awaited (in ms, in order), and how many fetch attempts were made. -/
structure RetryRun where
  result : RetryResult
  delays : List Nat
  attemptsMade : Nat
deriving DecidableEq

/-- The error produced by a failed attempt: a non-2xx response is turned into
an Error with message "HTTP status: statusText"; a rejection is the thrown
error itself. -/
def attemptError : AttemptOutcome → JsError
  | .resp _ st stx => mkError (("HTTP ".toList ++ (Nat.repr st).toList ++ ": ".toList) ++ stx)
  | .thrown n m => { name := n, msg := m }

def msgTimeout : JSString :=
  "Request timeout - please check your internet connection and try again".toList

def msgConnection : JSString :=
  "Network connection failed - please check your internet connection".toList

/-- Classification of the error of the final attempt: AbortError becomes the
timeout message, TypeError the connectivity message, anything else is
rethrown as-is. -/
def classifyFinal (e : JsError) : JsError :=
  if e.name = "AbortError".toList then mkError msgTimeout
  else if e.name = "TypeError".toList then mkError msgConnection
  else e

/-- The retry loop of fetchWithRetry: attempt is the 1-based attempt counter,
fuel = maxRetries - attempt + 1 is the number of loop iterations left.  A
failed non-final attempt records the backoff delay 2^(attempt-1) * 1000 ms
and continues. -/
def retryLoop (oracle : Nat → AttemptOutcome) (maxRetries : Nat) : Nat → Nat → RetryRun
  | _, 0 => { result := .undef, delays := [], attemptsMade := 0 }
  | attempt, fuel + 1 =>
    match oracle attempt with
    | .resp true st stx =>
      { result := .success { ok := true, status := st, statusText := stx }
        delays := [], attemptsMade := 1 }
    | out =>
      let e := attemptError out
      if attempt = maxRetries then
        { result := .failure (classifyFinal e), delays := [], attemptsMade := 1 }
      else
        let rest := retryLoop oracle maxRetries (attempt + 1) fuel
        { result := rest.result
          delays := 2 ^ (attempt - 1) * 1000 :: rest.delays
          attemptsMade := rest.attemptsMade + 1 }

/-- Embedding of NetworkUtils.fetchWithRetry: run the loop from attempt 1.
The oracle gives the outcome of each attempt. -/
def fetchWithRetry (oracle : Nat → AttemptOutcome) (maxRetries : Nat) : RetryRun :=
  retryLoop oracle maxRetries 1 maxRetries

/-! ## WeatherService: geocoding -/

/-- One result object of the forward-geocoding response.  Numeric JSON fields
are a number or absent; string fields a string or absent. -/
structure GeoResult where
  latitude : Option JSNum
  longitude : Option JSNum
  name : Option JSString
  country : Option JSString
  admin1 : Option JSString
deriving DecidableEq, Inhabited

/-- Body of the forward-geocoding response; `results` may be absent. -/
structure GeoResponse where
  results : Option (List GeoResult)
deriving DecidableEq

/-- Outcome of the geocoding fetch + json(): a thrown error (network failure,
timeout, non-2xx after retries) or a parsed body. -/
inductive GeoNet
  | thrown (e : JsError)
  | resp (r : GeoResponse)

/-- The location record built by getCoordinates. -/
structure LocationRecord where
  latitude : JSNum
  longitude : JSNum
  name : JSString
  country : JSString
  admin1 : Option JSString
deriving DecidableEq

/-- Truthiness of an optional number field: absent, 0 and NaN are falsy. -/
def truthyNumField : Option JSNum → Bool
  | none => false
  | some n => jsTruthy n

/-- Truthiness of an optional string field: absent and empty are falsy. -/
def truthyStrField : Option JSString → Bool
  | none => false
  | some s => s != []

/-- Value of `x || d` for an optional string field. -/
def strFieldOr (x : Option JSString) (d : JSString) : JSString :=
  match x with
  | none => d
  | some s => if s = [] then d else s

/-- Value of `location.admin1 || null`: null when the field is absent or
empty. -/
def adminFieldOrNull (x : Option JSString) : Option JSString :=
  match x with
  | none => none
  | some s => if s = [] then none else s

/-- The "No results found" message of getCoordinates (city interpolated). -/
def msgNoResults (city : JSString) : JSString :=
  "No results found for \"".toList ++ city ++
    "\". Please check the spelling or try a different city name.".toList

def errInvalidLocation : JsError :=
  mkError "Invalid location data received from server".toList

/-- parseFloat applied to a JSON number round-trips to the same number (the
geocoding fields are modelled as numbers, see GeoResult). -/
def parseFloatNum (n : JSNum) : JSNum := n

/-- The try-block of getCoordinates: validation, fetch, result checks, record
construction.  Second component: whether the network call was reached. -/
def getCoordinatesInner (cityName : Option JSString) (net : GeoNet) :
    Except JsError LocationRecord × Bool :=
  match validateCityName cityName with
  | .error e => (.error e, false)
  | .ok validatedCity =>
    match net with
    | .thrown e => (.error e, true)
    | .resp data =>
      match data.results with
      | none => (.error (mkError (msgNoResults validatedCity)), true)
      | some rs =>
        if rs.length = 0 then (.error (mkError (msgNoResults validatedCity)), true)
        else
          let location := rs.headI
          if (!truthyNumField location.latitude || !truthyNumField location.longitude
              || !truthyStrField location.name) then
            (.error errInvalidLocation, true)
          else
            (.ok { latitude := parseFloatNum (location.latitude.getD .nan)
                   longitude := parseFloatNum (location.longitude.getD .nan)
                   name := location.name.getD []
                   country := strFieldOr location.country "Unknown".toList
                   admin1 := adminFieldOrNull location.admin1 }, true)

/-- The catch-block of getCoordinates: errors whose message contains
"No results found" or "Invalid location" are rethrown as-is, every other
error is wrapped with the "Unable to find location" prefix. -/
def geoCatch (r : Except JsError LocationRecord) : Except JsError LocationRecord :=
  match r with
  | .ok v => .ok v
  | .error e =>
    if jsIncludes e.msg "No results found".toList
        || jsIncludes e.msg "Invalid location".toList then .error e
    else .error (mkError ("Unable to find location: ".toList ++ e.msg))

/-- Embedding of WeatherService.getCoordinates. -/
def getCoordinates (cityName : Option JSString) (net : GeoNet) :
    Except JsError LocationRecord × Bool :=
  let p := getCoordinatesInner cityName net
  (geoCatch p.1, p.2)

/-- Embedding of WeatherService.searchCities.  The validator throws on an
invalid query, the throw is caught by the catch-all which returns the empty
list; the explicit falsy test on its return value never fires because a
validated name is a nonempty string.  On a fetch failure the catch also
returns the empty list; otherwise the raw results (or empty when absent) are
returned.  Second component: whether the network call was reached. -/
def searchCities (query : Option JSString) (net : GeoNet) :
    List GeoResult × Bool :=
  match validateCityName query with
  | .error _ => ([], false)
  | .ok valid =>
    if valid = [] then ([], false)
    else
      match net with
      | .thrown _ => ([], true)
      | .resp data => (data.results.getD [], true)

/-! ## WeatherService.getWeatherData -/

/-- A payload time value: the observable fields the code reads after
new Date(t) (day of week, hour of day) plus the locale time label it
renders.  Date parsing itself is environment dependent and is embedded as
these precomputed observations. -/
structure JSDate where
  getDay : Fin 7
  getHours : Nat
  timeLabel : JSString
deriving DecidableEq

instance : Inhabited JSDate := ⟨{ getDay := ⟨0, by omega⟩, getHours := 0, timeLabel := [] }⟩

/-- The `current` block of the weather payload. -/
structure CurrentBlock where
  temperature_2m : ℚ
  relative_humidity_2m : ℚ
  apparent_temperature : ℚ
  weather_code : ℤ
  wind_speed_10m : ℚ
  wind_direction_10m : ℚ
  pressure_msl : Option ℚ
  visibility : Option ℚ
deriving DecidableEq

/-- The `hourly` block: parallel arrays of times and metrics. -/
structure HourlyBlock where
  time : List JSDate
  temperature_2m : List ℚ
  weather_code : List ℤ
deriving DecidableEq

/-- The `daily` block: parallel arrays of times and metrics.  An entry of
precipitation_sum may be absent (null), which `|| 0` maps to 0. -/
structure DailyBlock where
  time : List JSDate
  weather_code : List ℤ
  temperature_2m_max : List ℚ
  temperature_2m_min : List ℚ
  apparent_temperature_max : List ℚ
  apparent_temperature_min : List ℚ
  precipitation_sum : List (Option ℚ)
  wind_speed_10m_max : List ℚ
deriving DecidableEq

/-- The parsed weather payload; each block may be absent. -/
structure WeatherData where
  current : Option CurrentBlock
  daily : Option DailyBlock
  hourly : Option HourlyBlock
deriving DecidableEq

/-- Outcome of the weather fetch + json(). -/
inductive WeatherNet
  | thrown (e : JsError)
  | resp (d : WeatherData)

def errInvalidCoords : JsError := mkError "Invalid coordinates provided".toList

def errInvalidLatitude : JsError :=
  mkError "Invalid latitude (must be between -90 and 90)".toList

def errInvalidLongitude : JsError :=
  mkError "Invalid longitude (must be between -180 and 180)".toList

def errInvalidWeatherData : JsError :=
  mkError "Invalid weather data format received from server".toList

/-- The try-block of getWeatherData: coordinate validation, fetch, payload
shape validation.  Second component: whether the network call was reached. -/
def getWeatherDataInner (latitude longitude : JSNum) (net : WeatherNet) :
    Except JsError WeatherData × Bool :=
  if (!jsTruthy latitude || !jsTruthy longitude
      || jsIsNaN latitude || jsIsNaN longitude) then
    (.error errInvalidCoords, false)
  else if jsLt latitude (.num (-90)) || jsLt (.num 90) latitude then
    (.error errInvalidLatitude, false)
  else if jsLt longitude (.num (-180)) || jsLt (.num 180) longitude then
    (.error errInvalidLongitude, false)
  else
    match net with
    | .thrown e => (.error e, true)
    | .resp data =>
      if data.current.isNone || data.daily.isNone || data.hourly.isNone then
        (.error errInvalidWeatherData, true)
      else
        (.ok data, true)

/-- The catch-block of getWeatherData: errors whose message contains
"Invalid coordinates", "Invalid latitude" or "Invalid longitude" are
rethrown as-is, every other error is wrapped with the "Unable to fetch
weather data" prefix. -/
def weatherCatch (r : Except JsError WeatherData) : Except JsError WeatherData :=
  match r with
  | .ok v => .ok v
  | .error e =>
    if jsIncludes e.msg "Invalid coordinates".toList
        || jsIncludes e.msg "Invalid latitude".toList
        || jsIncludes e.msg "Invalid longitude".toList then .error e
    else .error (mkError ("Unable to fetch weather data: ".toList ++ e.msg))

/-- Embedding of WeatherService.getWeatherData. -/
def getWeatherData (latitude longitude : JSNum) (net : WeatherNet) :
    Except JsError WeatherData × Bool :=
  let p := getWeatherDataInner latitude longitude net
  (weatherCatch p.1, p.2)

/-! ## WeatherDataProcessor -/

/-- Embedding of Math.round on an exact rational: floor(q + 1/2), computed on
numerator and denominator so that it evaluates by kernel reduction (fdiv is
floor division and 2*den is positive).  jsRound_eq_floor below relates it to
the Mathlib floor. -/
def jsRound (q : ℚ) : ℤ :=
  (2 * q.num + (q.den : ℤ)).fdiv (2 * (q.den : ℤ))

/-- Lookup in an object literal keyed by integers, first match wins (the keys
of the literals below are distinct, so this is plain property access). -/
def tableLookup {α : Type} : List (ℤ × α) → ℤ → Option α
  | [], _ => none
  | (k, v) :: rest, c => if c = k then some v else tableLookup rest c

/-- The weather-code → description object literal of getWeatherDescription. -/
def descTable : List (ℤ × JSString) :=
  [(0, "Clear sky".toList), (1, "Mainly clear".toList), (2, "Partly cloudy".toList),
   (3, "Overcast".toList), (45, "Fog".toList), (48, "Depositing rime fog".toList),
   (51, "Light drizzle".toList), (53, "Moderate drizzle".toList),
   (55, "Dense drizzle".toList), (56, "Light freezing drizzle".toList),
   (57, "Dense freezing drizzle".toList), (61, "Slight rain".toList),
   (63, "Moderate rain".toList), (65, "Heavy rain".toList),
   (66, "Light freezing rain".toList), (67, "Heavy freezing rain".toList),
   (71, "Slight snow fall".toList), (73, "Moderate snow fall".toList),
   (75, "Heavy snow fall".toList), (77, "Snow grains".toList),
   (80, "Slight rain showers".toList), (81, "Moderate rain showers".toList),
   (82, "Violent rain showers".toList), (85, "Slight snow showers".toList),
   (86, "Heavy snow showers".toList), (95, "Thunderstorm".toList),
   (96, "Thunderstorm with slight hail".toList),
   (99, "Thunderstorm with heavy hail".toList)]

/-- Embedding of WeatherDataProcessor.getWeatherDescription. -/
def getWeatherDescription (code : ℤ) : JSString :=
  (tableLookup descTable code).getD "Unknown".toList

/-- The weather-code → icon object literal of getWeatherIcon. -/
def iconTable : List (ℤ × JSString) :=
  [(0, "☀️".toList), (1, "🌤️".toList), (2, "⛅".toList), (3, "☁️".toList),
   (45, "🌫️".toList), (48, "🌫️".toList), (51, "🌦️".toList), (53, "🌦️".toList),
   (55, "🌦️".toList), (56, "🌦️".toList), (57, "🌦️".toList), (61, "🌧️".toList),
   (63, "🌧️".toList), (65, "🌧️".toList), (66, "🌧️".toList), (67, "🌧️".toList),
   (71, "🌨️".toList), (73, "🌨️".toList), (75, "🌨️".toList), (77, "🌨️".toList),
   (80, "🌦️".toList), (81, "🌦️".toList), (82, "🌦️".toList), (85, "🌨️".toList),
   (86, "🌨️".toList), (95, "⛈️".toList), (96, "⛈️".toList), (99, "⛈️".toList)]

/-- Embedding of WeatherDataProcessor.getWeatherIcon. -/
def getWeatherIcon (code : ℤ) : JSString :=
  (tableLookup iconTable code).getD "❓".toList

/-- The Sunday-first weekday name table of getDayName. -/
def dayNames : List JSString :=
  ["Sunday".toList, "Monday".toList, "Tuesday".toList, "Wednesday".toList,
   "Thursday".toList, "Friday".toList, "Saturday".toList]

/-- The Sunday-first short weekday name table of getShortDayName. -/
def shortDayNames : List JSString :=
  ["Sun".toList, "Mon".toList, "Tue".toList, "Wed".toList,
   "Thu".toList, "Fri".toList, "Sat".toList]

/-- Embedding of WeatherDataProcessor.getDayName: days[date.getDay()], always
in range because getDay yields 0..6. -/
def getDayName (date : JSDate) : JSString :=
  dayNames.getD date.getDay.val []

/-- Embedding of WeatherDataProcessor.getShortDayName. -/
def getShortDayName (date : JSDate) : JSString :=
  shortDayNames.getD date.getDay.val []

/-- One entry built by processHourlyForecast for index hourIndex of the
hourly series. -/
structure HourlyEntry where
  timeLabel : JSString
  hour : Nat
  temperature : ℤ
  weatherCode : ℤ
  icon : JSString
deriving DecidableEq, Inhabited

/-- The entry pushed by processHourlyForecast at a given in-range index. -/
def hourlyEntryAt (hourly : HourlyBlock) (hourIndex : Nat) : HourlyEntry :=
  let time := hourly.time.getD hourIndex default
  { timeLabel := time.timeLabel
    hour := time.getHours
    temperature := jsRound (hourly.temperature_2m.getD hourIndex 0)
    weatherCode := hourly.weather_code.getD hourIndex 0
    icon := getWeatherIcon (hourly.weather_code.getD hourIndex 0) }

/-- Embedding of WeatherDataProcessor.processHourlyForecast: the loop runs
i = 0..11 and pushes an entry for hourIndex = currentHour + i whenever that
index is inside the hourly time series. -/
def processHourlyForecast (hourly : HourlyBlock) (currentHour : Nat) : List HourlyEntry :=
  (List.range 12).filterMap fun i =>
    if currentHour + i < hourly.time.length then some (hourlyEntryAt hourly (currentHour + i))
    else none

/-- One entry built by processForecast for index i of the daily series. -/
structure DailyEntry where
  date : JSDate
  dayName : JSString
  shortDay : JSString
  weatherCode : ℤ
  description : JSString
  icon : JSString
  maxTemp : ℤ
  minTemp : ℤ
  feelsLikeMax : ℤ
  feelsLikeMin : ℤ
  precipitation : ℚ
  maxWind : ℤ
deriving DecidableEq, Inhabited

/-- The entry pushed by processForecast at index i; `|| 0` on the
precipitation field turns an absent entry into 0 (and keeps every number,
since 0 || 0 is 0). -/
def dailyEntryAt (daily : DailyBlock) (i : Nat) : DailyEntry :=
  let date := daily.time.getD i default
  { date := date
    dayName := getDayName date
    shortDay := getShortDayName date
    weatherCode := daily.weather_code.getD i 0
    description := getWeatherDescription (daily.weather_code.getD i 0)
    icon := getWeatherIcon (daily.weather_code.getD i 0)
    maxTemp := jsRound (daily.temperature_2m_max.getD i 0)
    minTemp := jsRound (daily.temperature_2m_min.getD i 0)
    feelsLikeMax := jsRound (daily.apparent_temperature_max.getD i 0)
    feelsLikeMin := jsRound (daily.apparent_temperature_min.getD i 0)
    precipitation := (daily.precipitation_sum.getD i none).getD 0
    maxWind := jsRound (daily.wind_speed_10m_max.getD i 0) }

/-- Embedding of WeatherDataProcessor.processForecast: the loop runs
i = 1 .. time.length - 1 (skipping index 0, today) and pushes one entry per
index. -/
def processForecast (daily : DailyBlock) : List DailyEntry :=
  (List.range (daily.time.length - 1)).map fun j => dailyEntryAt daily (j + 1)

/-- The 16-label compass table of getWindDirection. -/
def directions : List JSString :=
  ["N".toList, "NNE".toList, "NE".toList, "ENE".toList, "E".toList, "ESE".toList,
   "SE".toList, "SSE".toList, "S".toList, "SSW".toList, "SW".toList, "WSW".toList,
   "W".toList, "WNW".toList, "NW".toList, "NNW".toList]

/-- JavaScript % (remainder with the sign of the dividend) for the divisor 16
used by getWindDirection; for a nonnegative dividend it is the euclidean
remainder. -/
def jsRem (a b : ℤ) : ℤ :=
  if 0 ≤ a then a % b else -((-a) % b)

/-- Embedding of WeatherDataProcessor.getWindDirection: index the table at
round(degrees / 22.5) % 16; a JavaScript array access outside the bounds
yields undefined, embedded as `none`. -/
def getWindDirection (degrees : ℚ) : Option JSString :=
  let index : ℤ := jsRem (jsRound (degrees / 22.5)) 16
  if 0 ≤ index then directions.get? index.toNat else none

/-! ## Helper lemmas -/

/-- jsRound is floor(q + 1/2), i.e. rounding half toward positive infinity,
which is what Math.round computes. -/
theorem jsRound_eq_floor (q : ℚ) : jsRound q = ⌊q + 1 / 2⌋ := by
  have hd : (0 : ℤ) < (q.den : ℤ) := by exact_mod_cast q.pos
  have h2d : (0 : ℤ) ≤ 2 * (q.den : ℤ) := by omega
  have hcast : q + 1 / 2 = ((2 * q.num + (q.den : ℤ) : ℤ) : ℚ) / ((2 * q.den : ℕ) : ℚ) := by
    have hden : ((q.den : ℚ)) ≠ 0 := by positivity
    conv_lhs => rw [← Rat.num_div_den q]
    push_cast
    field_simp
    ring
  rw [jsRound, Int.fdiv_eq_ediv _ h2d, hcast, Rat.floor_intCast_div_natCast]
  norm_cast

/-- A whitespace character is never one of the rejected characters. -/
theorem white_not_dangerous (c : Char) (h : jsWhite c = true) : dangerousChar c = false := by
  simp only [jsWhite, Bool.or_eq_true, decide_eq_true_eq] at h
  rcases h with ((((h | h) | h) | h) | h) | h <;> subst h <;> decide

/-- Dropping a whitespace run does not change whether a rejected character
occurs. -/
theorem any_dangerous_dropWhile (l : JSString) :
    (l.dropWhile jsWhite).any dangerousChar = l.any dangerousChar := by
  induction l with
  | nil => rfl
  | cons c t ih =>
    by_cases h : jsWhite c = true
    · rw [List.dropWhile_cons_of_pos h, ih, List.any_cons, white_not_dangerous c h,
        Bool.false_or]
    · rw [List.dropWhile_cons_of_neg (by simp [h])]

/-- Reversal does not change whether a rejected character occurs. -/
theorem any_dangerous_reverse (l : JSString) :
    l.reverse.any dangerousChar = l.any dangerousChar := by
  rw [Bool.eq_iff_iff]
  simp [List.any_eq_true, List.mem_reverse]

/-- Trimming does not change whether a rejected character occurs: the claim
speaks about the raw value, the code tests the trimmed one, and both agree
because the rejected characters are not whitespace. -/
theorem any_dangerous_jsTrim (s : JSString) :
    (jsTrim s).any dangerousChar = s.any dangerousChar := by
  rw [jsTrim, any_dangerous_reverse, any_dangerous_dropWhile, any_dangerous_reverse,
    any_dangerous_dropWhile]

/-- A table lookup hits iff the key occurs in the key column. -/
theorem tableLookup_isSome_iff {α : Type} (l : List (ℤ × α)) (c : ℤ) :
    (tableLookup l c).isSome = true ↔ c ∈ l.map Prod.fst := by
  induction l with
  | nil => simp [tableLookup]
  | cons p rest ih =>
    obtain ⟨k, v⟩ := p
    by_cases h : c = k
    · simp [tableLookup, h]
    · simp [tableLookup, h, ih]

/-- A successful table lookup returns a value of the value column. -/
theorem tableLookup_mem_snd {α : Type} (l : List (ℤ × α)) (c : ℤ) (v : α)
    (h : tableLookup l c = some v) : v ∈ l.map Prod.snd := by
  induction l with
  | nil => simp [tableLookup] at h
  | cons p rest ih =>
    obtain ⟨k, w⟩ := p
    by_cases hk : c = k
    · simp only [tableLookup, if_pos hk, Option.some.injEq] at h
      simp [← h]
    · simp only [tableLookup, if_neg hk] at h
      simp [ih h]

/-- Every string starts with the empty needle. -/
theorem leadsWith_nil (x : JSString) : leadsWith x [] = true := by
  cases x <;> rfl

/-- leadsWith is stable under extending the searched string on the right. -/
theorem leadsWith_append (a b n : JSString) (h : leadsWith a n = true) :
    leadsWith (a ++ b) n = true := by
  induction n generalizing a with
  | nil => exact leadsWith_nil _
  | cons c ns ih =>
    cases a with
    | nil => simp [leadsWith] at h
    | cons x xs =>
      simp only [leadsWith, Bool.and_eq_true, decide_eq_true_eq] at h
      simp only [List.cons_append, leadsWith, Bool.and_eq_true, decide_eq_true_eq]
      exact ⟨h.1, ih xs h.2⟩

/-- A string that starts with the needle contains the needle. -/
theorem jsIncludes_of_leadsWith (hay needle : JSString) (h : leadsWith hay needle = true) :
    jsIncludes hay needle = true := by
  unfold jsIncludes
  rw [if_pos h]

/-- The "No results found" message always contains the needle the catch block
of getCoordinates tests, whatever the city is. -/
theorem msgNoResults_includes (city : JSString) :
    jsIncludes (msgNoResults city) "No results found".toList = true := by
  unfold msgNoResults
  rw [List.append_assoc]
  exact jsIncludes_of_leadsWith _ _ (leadsWith_append _ _ _ (by decide))

/-! ## Claim theorems -/

/-- Claim C4: validateCityName fails on a non-string or empty value, a value
whose trimmed form is empty, shorter than 2 or longer than 100 characters, or
a value containing one of the characters rejected by the guard, applying the
rules in this order with the first failing rule winning; on every other
string it returns the trimmed string. -/
theorem claim_c4 (s : JSString) :
    validateCityName none = .error errCityRequired ∧
    (s = [] → validateCityName (some s) = .error errCityRequired) ∧
    (s ≠ [] → jsTrim s = [] → validateCityName (some s) = .error errCityEmpty) ∧
    (jsTrim s ≠ [] → (jsTrim s).length < 2 →
      validateCityName (some s) = .error errCityShort) ∧
    (2 ≤ (jsTrim s).length → 100 < (jsTrim s).length →
      validateCityName (some s) = .error errCityLong) ∧
    (2 ≤ (jsTrim s).length → (jsTrim s).length ≤ 100 → s.any dangerousChar = true →
      validateCityName (some s) = .error errCityChars) ∧
    (2 ≤ (jsTrim s).length → (jsTrim s).length ≤ 100 → s.any dangerousChar = false →
      validateCityName (some s) = .ok (jsTrim s)) := by
  refine ⟨rfl, ?_, ?_, ?_, ?_, ?_, ?_⟩
  · intro h
    subst h
    rfl
  · intro hs ht
    rw [validateCityName, if_neg hs, if_pos (by simp [ht])]
  · intro ht hlen
    have hs : s ≠ [] := by
      intro h
      subst h
      exact ht rfl
    rw [validateCityName, if_neg hs]
    rw [if_neg (by simpa [List.length_eq_zero] using ht), if_pos hlen]
  · intro h2 h100
    have ht : jsTrim s ≠ [] := by
      intro h
      rw [h] at h2
      simp at h2
    have hs : s ≠ [] := by
      intro h
      subst h
      exact ht rfl
    rw [validateCityName, if_neg hs, if_neg (by simpa [List.length_eq_zero] using ht),
      if_neg (by omega), if_pos (by omega)]
  · intro h2 h100 hdang
    have ht : jsTrim s ≠ [] := by
      intro h
      rw [h] at h2
      simp at h2
    have hs : s ≠ [] := by
      intro h
      subst h
      exact ht rfl
    rw [validateCityName, if_neg hs, if_neg (by simpa [List.length_eq_zero] using ht),
      if_neg (by omega), if_neg (by omega),
      if_pos (by rw [any_dangerous_jsTrim]; exact hdang)]
  · intro h2 h100 hdang
    have ht : jsTrim s ≠ [] := by
      intro h
      rw [h] at h2
      simp at h2
    have hs : s ≠ [] := by
      intro h
      subst h
      exact ht rfl
    rw [validateCityName, if_neg hs, if_neg (by simpa [List.length_eq_zero] using ht),
      if_neg (by omega), if_neg (by omega),
      if_neg (by rw [any_dangerous_jsTrim, hdang]; simp)]

/-- Witness for C4: a padded name is accepted trimmed; a name with a rejected
character is refused. -/
theorem claim_c4_witness :
    validateCityName (some "  London  ".toList) = .ok "London".toList ∧
    validateCityName (some "a<b".toList) = .error errCityChars := by
  constructor
  · have h := (claim_c4 "  London  ".toList).2.2.2.2.2.2 (by decide) (by decide) (by decide)
    rw [h]
    decide
  · exact (claim_c4 "a<b".toList).2.2.2.2.2.1 (by decide) (by decide) (by decide)

/-- Claim C10: the description table and the icon table are keyed on the same
set of weather codes, so a code gets the "Unknown" description exactly when
it gets the placeholder icon. -/
theorem claim_c10 (code : ℤ) :
    (getWeatherDescription code = "Unknown".toList) ↔
      (getWeatherIcon code = "❓".toList) := by
  have hkeys : descTable.map Prod.fst = iconTable.map Prod.fst := by decide
  have hdesc : "Unknown".toList ∉ descTable.map Prod.snd := by decide
  have hicon : "❓".toList ∉ iconTable.map Prod.snd := by decide
  unfold getWeatherDescription getWeatherIcon
  cases hld : tableLookup descTable code with
  | none =>
    cases hli : tableLookup iconTable code with
    | none => simp
    | some w =>
      have h1 : code ∈ iconTable.map Prod.fst := by
        rw [← tableLookup_isSome_iff, hli]
        rfl
      have h2 : code ∉ descTable.map Prod.fst := by
        rw [← tableLookup_isSome_iff, hld]
        simp
      rw [hkeys] at h2
      exact absurd h1 h2
  | some v =>
    cases hli : tableLookup iconTable code with
    | none =>
      have h1 : code ∈ descTable.map Prod.fst := by
        rw [← tableLookup_isSome_iff, hld]
        rfl
      have h2 : code ∉ iconTable.map Prod.fst := by
        rw [← tableLookup_isSome_iff, hli]
        simp
      rw [← hkeys] at h2
      exact absurd h1 h2
    | some w =>
      have h1 : v ≠ "Unknown".toList := fun h =>
        hdesc (h ▸ tableLookup_mem_snd descTable code v hld)
      have h2 : w ≠ "❓".toList := fun h =>
        hicon (h ▸ tableLookup_mem_snd iconTable code w hli)
      simp only [hld, hli, Option.getD_some]
      exact ⟨fun h => absurd h h1, fun h => absurd h h2⟩

/-- Claim C8: for bearings in [0, 360] the compass label is the table entry
at index round(degrees / 22.5) mod 16, and such an entry always exists. -/
theorem claim_c8 (d : ℚ) (h0 : 0 ≤ d) (h1 : d ≤ 360) :
    getWindDirection d =
      some (directions.getD (jsRem (jsRound (d / 22.5)) 16).toNat []) ∧
    (getWindDirection d).isSome = true := by
  have h225 : (0 : ℚ) < 22.5 := by norm_num
  have hx0 : 0 ≤ d / 22.5 := div_nonneg h0 (le_of_lt h225)
  have hx16 : d / 22.5 ≤ 16 := by
    rw [div_le_iff h225]
    nlinarith
  have hr0 : 0 ≤ jsRound (d / 22.5) := by
    rw [jsRound_eq_floor]
    refine Int.le_floor.mpr ?_
    push_cast
    linarith
  have hr16 : jsRound (d / 22.5) ≤ 16 := by
    rw [jsRound_eq_floor]
    have hfl := Int.floor_le (d / 22.5 + 1 / 2)
    have h17 : ((⌊d / 22.5 + 1 / 2⌋ : ℤ) : ℚ) < 17 := by linarith
    have : (⌊d / 22.5 + 1 / 2⌋ : ℤ) < 17 := by exact_mod_cast h17
    omega
  have hrem : jsRem (jsRound (d / 22.5)) 16 = jsRound (d / 22.5) % 16 := if_pos hr0
  have hnn : 0 ≤ jsRound (d / 22.5) % 16 := Int.emod_nonneg _ (by norm_num)
  have hlt : jsRound (d / 22.5) % 16 < 16 := Int.emod_lt_of_pos _ (by norm_num)
  have hlen : directions.length = 16 := by decide
  have hidx : (jsRem (jsRound (d / 22.5)) 16).toNat < directions.length := by
    rw [hrem, hlen]
    omega
  have hmain : getWindDirection d =
      some (directions.getD (jsRem (jsRound (d / 22.5)) 16).toNat []) := by
    simp only [getWindDirection]
    rw [if_pos (hrem ▸ hnn), List.get?_eq_get hidx, List.getD_eq_get directions [] hidx]
  exact ⟨hmain, by rw [hmain]; rfl⟩

/-- Witness for C8: the three bearings named by the specification. -/
theorem claim_c8_witness :
    getWindDirection 0 = some "N".toList ∧ getWindDirection 90 = some "E".toList ∧
    getWindDirection 359 = some "N".toList ∧ (getWindDirection 0).isSome = true :=
  ⟨by decide, by decide, by decide, (claim_c8 0 (by decide) (by decide)).2⟩

/-- Invariants of the retry loop: at most `fuel` attempts are made, at most
fuel - 1 backoff delays are awaited, and the j-th recorded delay (0-based,
i.e. the delay after failed attempt number attempt + j) is
2^(attempt - 1 + j) * 1000 ms. -/
theorem retryLoop_spec (oracle : Nat → AttemptOutcome) (maxR : Nat) :
    ∀ fuel attempt, 1 ≤ attempt → attempt + fuel = maxR + 1 →
      (retryLoop oracle maxR attempt fuel).attemptsMade ≤ fuel ∧
      (retryLoop oracle maxR attempt fuel).delays.length ≤ fuel - 1 ∧
      ∀ j, j < (retryLoop oracle maxR attempt fuel).delays.length →
        (retryLoop oracle maxR attempt fuel).delays.getD j 0 = 2 ^ (attempt - 1 + j) * 1000 := by
  intro fuel
  induction fuel with
  | zero =>
    intro attempt _ _
    refine ⟨by simp [retryLoop], by simp [retryLoop], ?_⟩
    intro j hj
    simp [retryLoop] at hj
  | succ fuel ih =>
    intro attempt h1 hfuel
    cases hor : oracle attempt with
    | resp ok st sx =>
      cases ok with
      | true =>
        refine ⟨?_, ?_, ?_⟩ <;> simp [retryLoop, hor]
      | false =>
        by_cases hm : attempt = maxR
        · subst hm
          refine ⟨?_, ?_, ?_⟩ <;> simp [retryLoop, hor]
        · have hrec := ih (attempt + 1) (by omega) (by omega)
          refine ⟨?_, ?_, ?_⟩
          · simp only [retryLoop, hor, if_neg hm]
            omega
          · simp only [retryLoop, hor, if_neg hm, List.length_cons]
            omega
          · simp only [retryLoop, hor, if_neg hm, List.length_cons]
            intro j hj
            cases j with
            | zero => simp
            | succ j =>
              rw [List.getD_cons_succ]
              have := hrec.2.2 j (by omega)
              rw [this]
              have hexp : attempt + 1 - 1 + j = attempt - 1 + (j + 1) := by omega
              rw [hexp]
    | thrown n m =>
      by_cases hm : attempt = maxR
      · subst hm
        refine ⟨?_, ?_, ?_⟩ <;> simp [retryLoop, hor]
      · have hrec := ih (attempt + 1) (by omega) (by omega)
        refine ⟨?_, ?_, ?_⟩
        · simp only [retryLoop, hor, if_neg hm]
          omega
        · simp only [retryLoop, hor, if_neg hm, List.length_cons]
          omega
        · simp only [retryLoop, hor, if_neg hm, List.length_cons]
          intro j hj
          cases j with
          | zero => simp
          | succ j =>
            rw [List.getD_cons_succ]
            have := hrec.2.2 j (by omega)
            rw [this]
            have hexp : attempt + 1 - 1 + j = attempt - 1 + (j + 1) := by omega
            rw [hexp]

/-- Claim C5: with maxAttempts = 3, at most 3 fetch attempts are made, at
most 2 backoff delays are awaited (none after the final attempt), and the
delay after failed attempt j + 1 is 1000 * 2^j ms (1000 ms after attempt 1,
2000 ms after attempt 2). -/
theorem claim_c5 (oracle : Nat → AttemptOutcome) :
    (fetchWithRetry oracle 3).attemptsMade ≤ 3 ∧
    (fetchWithRetry oracle 3).delays.length ≤ 2 ∧
    ∀ j, j < (fetchWithRetry oracle 3).delays.length →
      (fetchWithRetry oracle 3).delays.getD j 0 = 1000 * 2 ^ j := by
  have h := retryLoop_spec oracle 3 3 1 (by omega) (by omega)
  refine ⟨h.1, h.2.1, ?_⟩
  intro j hj
  have := h.2.2 j hj
  rw [fetchWithRetry] at *
  rw [this]
  simp [Nat.mul_comm]

/-- A fault oracle for the C5 witness: attempts 1 and 2 fail with a network
fault, attempt 3 succeeds. -/
def c5Oracle : Nat → AttemptOutcome := fun n =>
  if n = 3 then .resp true 200 "OK".toList
  else .thrown "TypeError".toList "Failed to fetch".toList

/-- Witness for C5: with faults on attempts 1 and 2 the call succeeds on
attempt 3, three attempts are made, and the recorded waits are 1000 ms then
2000 ms. -/
theorem claim_c5_witness :
    (fetchWithRetry c5Oracle 3).delays = [1000, 2000] ∧
    (fetchWithRetry c5Oracle 3).delays.getD 0 0 = 1000 * 2 ^ 0 ∧
    (fetchWithRetry c5Oracle 3).delays.getD 1 0 = 1000 * 2 ^ 1 ∧
    (fetchWithRetry c5Oracle 3).attemptsMade = 3 ∧
    (fetchWithRetry c5Oracle 3).result =
      .success { ok := true, status := 200, statusText := "OK".toList } :=
  ⟨by decide, (claim_c5 c5Oracle).2.2 0 (by decide), (claim_c5 c5Oracle).2.2 1 (by decide),
    by decide, by decide⟩

/-- Claim C9: searchCities never propagates an error: a query that fails
validation yields the empty list with no network call, a thrown fetch error
yields the empty list, and an absent results field yields the empty list. -/
theorem claim_c9 (query : Option JSString) (net : GeoNet) :
    ((validateCityName query).isOk = false → searchCities query net = ([], false)) ∧
    (∀ e, net = .thrown e → (searchCities query net).1 = []) ∧
    (∀ d, net = .resp d → d.results = none → (searchCities query net).1 = []) := by
  refine ⟨?_, ?_, ?_⟩
  · intro hv
    cases hq : validateCityName query with
    | error e => simp [searchCities, hq]
    | ok v => rw [hq] at hv; simp [Except.isOk, Except.toBool] at hv
  · intro e hnet
    subst hnet
    cases hq : validateCityName query with
    | error e2 => simp [searchCities, hq]
    | ok v =>
      by_cases hv : v = []
      · simp [searchCities, hq, hv]
      · simp [searchCities, hq, hv]
  · intro dd hnet hres
    subst hnet
    cases hq : validateCityName query with
    | error e2 => simp [searchCities, hq]
    | ok v =>
      by_cases hv : v = []
      · simp [searchCities, hq, hv]
      · simp [searchCities, hq, hv, hres]

/-- Witness for C9: a query with a rejected character produces no network
call and no suggestions; a fetch failure produces no suggestions. -/
theorem claim_c9_witness :
    searchCities (some "a<b".toList) (.resp { results := some [] }) = ([], false) ∧
    (searchCities (some "Lon".toList) (.thrown (mkError "HTTP 500: Server Error".toList))).1
      = [] :=
  ⟨(claim_c9 (some "a<b".toList) (.resp { results := some [] })).1 (by decide),
    (claim_c9 (some "Lon".toList) (.thrown (mkError "HTTP 500: Server Error".toList))).2.1
      (mkError "HTTP 500: Server Error".toList) rfl⟩

/-- A filterMap over an initial range whose guard is a cutoff index produces
the mapped prefix up to the cutoff. -/
theorem filterMap_range_window {α : Type} (n k : Nat) (g : Nat → α) :
    ((List.range n).filterMap fun i => if i < k then some (g i) else none) =
      (List.range (min n k)).map g := by
  induction n with
  | zero => simp
  | succ n ih =>
    rw [List.range_succ, List.filterMap_append, ih]
    by_cases h : n < k
    · have h1 : min (n + 1) k = min n k + 1 := by omega
      have h2 : min n k = n := by omega
      rw [h1, List.range_succ, List.map_append]
      simp [h, h2]
    · have h1 : min (n + 1) k = min n k := by omega
      simp [h1, h]

/-- The hourly builder equals the map of entry construction over the clipped
index window. -/
theorem processHourlyForecast_eq (hourly : HourlyBlock) (currentHour : Nat) :
    processHourlyForecast hourly currentHour =
      (List.range (min 12 (hourly.time.length - currentHour))).map
        (fun i => hourlyEntryAt hourly (currentHour + i)) := by
  unfold processHourlyForecast
  have hcong : ∀ i : Nat,
      (if currentHour + i < hourly.time.length
        then some (hourlyEntryAt hourly (currentHour + i)) else none)
      = (if i < hourly.time.length - currentHour
        then some (hourlyEntryAt hourly (currentHour + i)) else none) := by
    intro i
    by_cases h : currentHour + i < hourly.time.length
    · rw [if_pos h, if_pos (by omega)]
    · rw [if_neg h, if_neg (by omega)]
  simp only [hcong]
  exact filterMap_range_window 12 _ _

/-- Claim C6: with parallel hourly arrays, the hourly builder returns the
entries at consecutive indices currentHour, currentHour+1, ... — at most 12
of them, clipped at the end of the series — with the temperature rounded to
the nearest integer and the weather code mapped to an icon. -/
theorem claim_c6 (hourly : HourlyBlock) (currentHour : Nat)
    (hT : hourly.temperature_2m.length = hourly.time.length)
    (hW : hourly.weather_code.length = hourly.time.length) :
    (processHourlyForecast hourly currentHour).length
        = min 12 (hourly.time.length - currentHour) ∧
    ∀ j, j < (processHourlyForecast hourly currentHour).length →
      ∀ (hj1 : currentHour + j < hourly.temperature_2m.length)
        (hj2 : currentHour + j < hourly.weather_code.length),
        ((processHourlyForecast hourly currentHour).getD j default).temperature
            = jsRound (hourly.temperature_2m.get ⟨currentHour + j, hj1⟩) ∧
        ((processHourlyForecast hourly currentHour).getD j default).weatherCode
            = hourly.weather_code.get ⟨currentHour + j, hj2⟩ ∧
        ((processHourlyForecast hourly currentHour).getD j default).icon
            = getWeatherIcon (hourly.weather_code.get ⟨currentHour + j, hj2⟩) := by
  rw [processHourlyForecast_eq]
  constructor
  · simp
  · intro j hj hj1 hj2
    simp only [List.length_map, List.length_range] at hj
    have hget : ((List.range (min 12 (hourly.time.length - currentHour))).map
        (fun i => hourlyEntryAt hourly (currentHour + i))).getD j default
          = hourlyEntryAt hourly (currentHour + j) := by
      rw [List.getD_eq_get _ _ (by simpa using hj)]
      simp
    rw [hget]
    refine ⟨?_, ?_, ?_⟩
    · show jsRound (hourly.temperature_2m.getD (currentHour + j) 0) = _
      rw [List.getD_eq_get _ _ hj1]
    · show hourly.weather_code.getD (currentHour + j) 0 = _
      rw [List.getD_eq_get _ _ hj2]
    · show getWeatherIcon (hourly.weather_code.getD (currentHour + j) 0) = _
      rw [List.getD_eq_get _ _ hj2]

/-- A time value for the C6/C7 witnesses. -/
def wDate : JSDate := { getDay := ⟨3, by omega⟩, getHours := 22, timeLabel := [] }

/-- A 24-entry hourly block for the C6 witness. -/
def c6Hourly : HourlyBlock :=
  { time := List.replicate 24 wDate
    temperature_2m := List.replicate 24 (55 : ℚ)
    weather_code := List.replicate 24 (0 : ℤ) }

/-- Witness for C6: currentHour = 22 over a 24-entry series yields exactly 2
entries, and the first carries the icon of its weather code. -/
theorem claim_c6_witness :
    (processHourlyForecast c6Hourly 22).length = 2 ∧
    ((processHourlyForecast c6Hourly 22).getD 0 default).icon = "☀️".toList := by
  have h := claim_c6 c6Hourly 22 rfl rfl
  constructor
  · rw [h.1]
    decide
  · have h2 := h.2 0 (by decide) (by decide) (by decide)
    rw [h2.2.2]
    decide

/-- Claim C7: with parallel daily arrays, the daily builder returns exactly
N - 1 entries covering indices 1 .. N-1 (skipping today at index 0), with all
temperature fields rounded to nearest integer, missing precipitation
defaulted to 0, and the weekday names taken from the Sunday-first tables at
the date's weekday. -/
theorem claim_c7 (daily : DailyBlock)
    (hW : daily.weather_code.length = daily.time.length)
    (hTMax : daily.temperature_2m_max.length = daily.time.length)
    (hTMin : daily.temperature_2m_min.length = daily.time.length)
    (hAMax : daily.apparent_temperature_max.length = daily.time.length)
    (hAMin : daily.apparent_temperature_min.length = daily.time.length)
    (hP : daily.precipitation_sum.length = daily.time.length)
    (hWind : daily.wind_speed_10m_max.length = daily.time.length) :
    (processForecast daily).length = daily.time.length - 1 ∧
    ∀ j, j < (processForecast daily).length →
      ∀ (ht : j + 1 < daily.time.length)
        (hw : j + 1 < daily.weather_code.length)
        (h1 : j + 1 < daily.temperature_2m_max.length)
        (h2 : j + 1 < daily.temperature_2m_min.length)
        (h3 : j + 1 < daily.apparent_temperature_max.length)
        (h4 : j + 1 < daily.apparent_temperature_min.length)
        (h5 : j + 1 < daily.precipitation_sum.length)
        (h6 : j + 1 < daily.wind_speed_10m_max.length),
        ((processForecast daily).getD j default).dayName
            = dayNames.getD (daily.time.get ⟨j + 1, ht⟩).getDay.val [] ∧
        ((processForecast daily).getD j default).shortDay
            = shortDayNames.getD (daily.time.get ⟨j + 1, ht⟩).getDay.val [] ∧
        ((processForecast daily).getD j default).weatherCode
            = daily.weather_code.get ⟨j + 1, hw⟩ ∧
        ((processForecast daily).getD j default).description
            = getWeatherDescription (daily.weather_code.get ⟨j + 1, hw⟩) ∧
        ((processForecast daily).getD j default).icon
            = getWeatherIcon (daily.weather_code.get ⟨j + 1, hw⟩) ∧
        ((processForecast daily).getD j default).maxTemp
            = jsRound (daily.temperature_2m_max.get ⟨j + 1, h1⟩) ∧
        ((processForecast daily).getD j default).minTemp
            = jsRound (daily.temperature_2m_min.get ⟨j + 1, h2⟩) ∧
        ((processForecast daily).getD j default).feelsLikeMax
            = jsRound (daily.apparent_temperature_max.get ⟨j + 1, h3⟩) ∧
        ((processForecast daily).getD j default).feelsLikeMin
            = jsRound (daily.apparent_temperature_min.get ⟨j + 1, h4⟩) ∧
        ((processForecast daily).getD j default).precipitation
            = (daily.precipitation_sum.get ⟨j + 1, h5⟩).getD 0 ∧
        ((processForecast daily).getD j default).maxWind
            = jsRound (daily.wind_speed_10m_max.get ⟨j + 1, h6⟩) := by
  constructor
  · unfold processForecast
    simp
  · intro j hj ht hw h1 h2 h3 h4 h5 h6
    have hlen : j < daily.time.length - 1 := by
      unfold processForecast at hj
      simpa using hj
    have hget : (processForecast daily).getD j default = dailyEntryAt daily (j + 1) := by
      unfold processForecast
      rw [List.getD_eq_get _ _ (by simpa using hlen)]
      simp
    rw [hget]
    refine ⟨?_, ?_, ?_, ?_, ?_, ?_, ?_, ?_, ?_, ?_, ?_⟩
    · show dayNames.getD ((daily.time.getD (j + 1) default).getDay).val [] = _
      rw [List.getD_eq_get _ _ ht]
    · show shortDayNames.getD ((daily.time.getD (j + 1) default).getDay).val [] = _
      rw [List.getD_eq_get _ _ ht]
    · show daily.weather_code.getD (j + 1) 0 = _
      rw [List.getD_eq_get _ _ hw]
    · show getWeatherDescription (daily.weather_code.getD (j + 1) 0) = _
      rw [List.getD_eq_get _ _ hw]
    · show getWeatherIcon (daily.weather_code.getD (j + 1) 0) = _
      rw [List.getD_eq_get _ _ hw]
    · show jsRound (daily.temperature_2m_max.getD (j + 1) 0) = _
      rw [List.getD_eq_get _ _ h1]
    · show jsRound (daily.temperature_2m_min.getD (j + 1) 0) = _
      rw [List.getD_eq_get _ _ h2]
    · show jsRound (daily.apparent_temperature_max.getD (j + 1) 0) = _
      rw [List.getD_eq_get _ _ h3]
    · show jsRound (daily.apparent_temperature_min.getD (j + 1) 0) = _
      rw [List.getD_eq_get _ _ h4]
    · show ((daily.precipitation_sum.getD (j + 1) none).getD 0 : ℚ) = _
      rw [List.getD_eq_get _ _ h5]
    · show jsRound (daily.wind_speed_10m_max.getD (j + 1) 0) = _
      rw [List.getD_eq_get _ _ h6]

/-- A 5-day daily block for the C7 witness (horizon indices 0..4). -/
def c7Daily : DailyBlock :=
  { time := List.replicate 5 wDate
    weather_code := List.replicate 5 (95 : ℤ)
    temperature_2m_max := List.replicate 5 (81 : ℚ)
    temperature_2m_min := List.replicate 5 (60 : ℚ)
    apparent_temperature_max := List.replicate 5 (84 : ℚ)
    apparent_temperature_min := List.replicate 5 (58 : ℚ)
    precipitation_sum := List.replicate 5 (none : Option ℚ)
    wind_speed_10m_max := List.replicate 5 (12 : ℚ)
    }

/-- Witness for C7: a 5-day horizon yields exactly 4 entries; the first entry
carries the weekday name of its date and the default 0 precipitation. -/
theorem claim_c7_witness :
    (processForecast c7Daily).length = 4 ∧
    ((processForecast c7Daily).getD 0 default).dayName = "Wednesday".toList ∧
    ((processForecast c7Daily).getD 0 default).precipitation = 0 := by
  have h := claim_c7 c7Daily rfl rfl rfl rfl rfl rfl rfl
  refine ⟨?_, ?_, ?_⟩
  · rw [h.1]
    decide
  · have h2 := h.2 0 (by decide) (by decide) (by decide) (by decide) (by decide)
      (by decide) (by decide) (by decide) (by decide)
    rw [h2.1]
    decide
  · have h2 := h.2 0 (by decide) (by decide) (by decide) (by decide) (by decide)
      (by decide) (by decide) (by decide) (by decide)
    rw [h2.2.2.2.2.2.2.2.2.2.1]
    decide

/-- An arbitrary weather fetch outcome used by the closed evaluation
theorems (the coordinate validation never reaches it). -/
def wnetEmpty : WeatherNet := .resp { current := none, daily := none, hourly := none }

/-- Claim C1 (code bug): latitude 45 / longitude 0 is a pair of finite,
in-range coordinates, yet getWeatherData rejects it with the coordinate
error, without any network call, because the truthiness test treats the
number 0 as a missing coordinate. -/
theorem claim_c1_code_bug :
    ((-90 : ℚ) ≤ 45 ∧ (45 : ℚ) ≤ 90 ∧ (-180 : ℚ) ≤ 0 ∧ (0 : ℚ) ≤ 180) ∧
    (getWeatherData (.num 45) (.num 0) wnetEmpty).1 = .error errInvalidCoords ∧
    (getWeatherData (.num 45) (.num 0) wnetEmpty).2 = false :=
  ⟨by decide, by decide, by decide⟩

/-- getCoordinates is the catch wrapper applied to the try body. -/
theorem getCoordinates_eq (cityName : Option JSString) (net : GeoNet) :
    getCoordinates cityName net =
      (geoCatch (getCoordinatesInner cityName net).1,
        (getCoordinatesInner cityName net).2) := rfl

/-- getWeatherData is the catch wrapper applied to the try body. -/
theorem getWeatherData_eq (latitude longitude : JSNum) (wnet : WeatherNet) :
    getWeatherData latitude longitude wnet =
      (weatherCatch (getWeatherDataInner latitude longitude wnet).1,
        (getWeatherDataInner latitude longitude wnet).2) := rfl

/-- The catch wrapper turns a thrown error into a thrown error, never into a
successful result. -/
theorem geoCatch_error_ne_ok (e : JsError) (rec : LocationRecord) :
    geoCatch (.error e) ≠ .ok rec := by
  intro hc
  simp only [geoCatch] at hc
  split at hc <;> simp at hc

/-- Evaluation of the try body when the results field is absent. -/
theorem getCoordinatesInner_noResults (cityName : Option JSString) (vc : JSString)
    (r : GeoResponse) (hv : validateCityName cityName = .ok vc) (hres : r.results = none) :
    getCoordinatesInner cityName (.resp r) = (.error (mkError (msgNoResults vc)), true) := by
  obtain ⟨results⟩ := r
  have h : results = none := hres
  subst h
  unfold getCoordinatesInner
  rw [hv]

/-- Evaluation of the try body when the results list is empty. -/
theorem getCoordinatesInner_emptyResults (cityName : Option JSString) (vc : JSString)
    (r : GeoResponse) (hv : validateCityName cityName = .ok vc)
    (hres : r.results = some []) :
    getCoordinatesInner cityName (.resp r) = (.error (mkError (msgNoResults vc)), true) := by
  obtain ⟨results⟩ := r
  have h : results = some [] := hres
  subst h
  unfold getCoordinatesInner
  rw [hv]
  rfl

/-- Evaluation of the try body on a nonempty results list: the truthiness
test on the top result decides between InvalidDataError and the record. -/
theorem getCoordinatesInner_cons (cityName : Option JSString) (vc : JSString)
    (r : GeoResponse) (res : GeoResult) (rest : List GeoResult)
    (hv : validateCityName cityName = .ok vc) (hres : r.results = some (res :: rest)) :
    getCoordinatesInner cityName (.resp r) =
      (if (!truthyNumField res.latitude || !truthyNumField res.longitude
          || !truthyStrField res.name) then (.error errInvalidLocation, true)
      else
        (.ok { latitude := res.latitude.getD .nan
               longitude := res.longitude.getD .nan
               name := res.name.getD []
               country := strFieldOr res.country "Unknown".toList
               admin1 := adminFieldOrNull res.admin1 }, true)) := by
  obtain ⟨results⟩ := r
  have h : results = some (res :: rest) := hres
  subst h
  unfold getCoordinatesInner
  rw [hv]
  rfl

/-- A truthy optional number field holds a truthy number. -/
theorem truthyNumField_getD (o : Option JSNum) (h : truthyNumField o = true) :
    jsTruthy (o.getD .nan) = true := by
  cases o with
  | none => simp [truthyNumField] at h
  | some n => simpa [truthyNumField] using h

/-- Every successfully resolved location has truthy (nonzero, non-NaN)
coordinates: resolution only succeeds after the truthiness test on the top
result passes, and the record copies those values. -/
theorem getCoordinates_ok_truthy (cityName : Option JSString) (net : GeoNet)
    (rec : LocationRecord) (h : (getCoordinates cityName net).1 = .ok rec) :
    jsTruthy rec.latitude = true ∧ jsTruthy rec.longitude = true := by
  rw [getCoordinates_eq] at h
  have h2 : geoCatch (getCoordinatesInner cityName net).1 = Except.ok rec := h
  have hinner : (getCoordinatesInner cityName net).1 = .ok rec := by
    cases hi : (getCoordinatesInner cityName net).1 with
    | ok v =>
      rw [hi] at h2
      have h3 : (Except.ok v : Except JsError LocationRecord) = Except.ok rec := h2
      exact h3
    | error e =>
      rw [hi] at h2
      exact absurd h2 (geoCatch_error_ne_ok e rec)
  cases net with
  | thrown e =>
    cases hv : validateCityName cityName with
    | error e2 =>
      have he : (getCoordinatesInner cityName (.thrown e)).1 = .error e2 := by
        unfold getCoordinatesInner
        rw [hv]
      rw [he] at hinner
      exact absurd hinner (by simp)
    | ok vc =>
      have he : (getCoordinatesInner cityName (.thrown e)).1 = .error e := by
        unfold getCoordinatesInner
        rw [hv]
      rw [he] at hinner
      exact absurd hinner (by simp)
  | resp r =>
    cases hv : validateCityName cityName with
    | error e2 =>
      have he : (getCoordinatesInner cityName (.resp r)).1 = .error e2 := by
        unfold getCoordinatesInner
        rw [hv]
      rw [he] at hinner
      exact absurd hinner (by simp)
    | ok vc =>
      cases hres : r.results with
      | none =>
        rw [getCoordinatesInner_noResults cityName vc r hv hres] at hinner
        exact absurd hinner (by simp)
      | some rs =>
        cases rs with
        | nil =>
          rw [getCoordinatesInner_emptyResults cityName vc r hv hres] at hinner
          exact absurd hinner (by simp)
        | cons res rest =>
          rw [getCoordinatesInner_cons cityName vc r res rest hv hres] at hinner
          by_cases hc : (!truthyNumField res.latitude || !truthyNumField res.longitude
              || !truthyStrField res.name) = true
          · rw [if_pos hc] at hinner
            exact absurd hinner (by simp)
          · rw [if_neg hc] at hinner
            have habc : (!truthyNumField res.latitude || !truthyNumField res.longitude
                || !truthyStrField res.name) = false := Bool.eq_false_iff.mpr hc
            simp only [Bool.or_eq_false_iff] at habc
            obtain ⟨⟨ha1, ha2⟩, ha3⟩ := habc
            simp only [Bool.not_eq_false'] at ha1 ha2
            have h4 : (Except.ok
                ({ latitude := res.latitude.getD .nan
                   longitude := res.longitude.getD .nan
                   name := res.name.getD []
                   country := strFieldOr res.country "Unknown".toList
                   admin1 := adminFieldOrNull res.admin1 } : LocationRecord)
                  : Except JsError LocationRecord) = Except.ok rec := hinner
            have h5 := Except.ok.inj h4
            rw [← h5]
            exact ⟨truthyNumField_getD res.latitude ha1, truthyNumField_getD res.longitude ha2⟩

/-- Claim C2, amended: the resolver performs no range validation of its own,
so an out-of-range successful resolution is possible (see the
counterexample); but whenever resolution succeeds and the returned
coordinates are numbers inside [-90, 90] x [-180, 180], the weather fetch's
coordinate validation passes and the network call is reached (success of the
resolver guarantees the values are nonzero and non-NaN, so the truthiness
test cannot reject them). -/
theorem claim_c2_amended (cityName : Option JSString) (net : GeoNet)
    (rec : LocationRecord) (wnet : WeatherNet) (a b : ℚ)
    (hok : (getCoordinates cityName net).1 = .ok rec)
    (hla : rec.latitude = .num a) (hlo : rec.longitude = .num b)
    (h1 : -90 ≤ a) (h2 : a ≤ 90) (h3 : -180 ≤ b) (h4 : b ≤ 180) :
    (getWeatherData rec.latitude rec.longitude wnet).2 = true := by
  obtain ⟨hta, htb⟩ := getCoordinates_ok_truthy cityName net rec hok
  rw [hla] at hta
  rw [hlo] at htb
  have ha : a ≠ 0 := by simpa [jsTruthy] using hta
  have hb : b ≠ 0 := by simpa [jsTruthy] using htb
  rw [hla, hlo, getWeatherData_eq]
  show (getWeatherDataInner (.num a) (.num b) wnet).2 = true
  have c1 : (!jsTruthy (JSNum.num a) || !jsTruthy (JSNum.num b)
      || jsIsNaN (JSNum.num a) || jsIsNaN (JSNum.num b)) = false := by
    simp [jsTruthy, jsIsNaN, ha, hb]
  have c2 : (jsLt (JSNum.num a) (JSNum.num (-90)) || jsLt (JSNum.num 90) (JSNum.num a))
      = false := by
    simp only [jsLt, Bool.or_eq_false_iff, decide_eq_false_iff_not, not_lt]
    constructor <;> linarith
  have c3 : (jsLt (JSNum.num b) (JSNum.num (-180)) || jsLt (JSNum.num 180) (JSNum.num b))
      = false := by
    simp only [jsLt, Bool.or_eq_false_iff, decide_eq_false_iff_not, not_lt]
    constructor <;> linarith
  unfold getWeatherDataInner
  rw [if_neg (by rw [c1]; simp), if_neg (by rw [c2]; simp), if_neg (by rw [c3]; simp)]
  cases wnet with
  | thrown e => rfl
  | resp data =>
    show (if (data.current.isNone || data.daily.isNone || data.hourly.isNone)
        then ((.error errInvalidWeatherData : Except JsError WeatherData), true)
        else (.ok data, true)).2 = true
    split <;> rfl

/-- The out-of-range geocoding result refuting C2 as stated. -/
def c2Res : GeoResult :=
  { latitude := some (.num 999), longitude := some (.num 10),
    name := some "Nowhere".toList, country := none, admin1 := none }

def c2Resp : GeoResponse := { results := some [c2Res] }

/-- The record the resolver builds from c2Res. -/
def c2Rec : LocationRecord :=
  { latitude := .num 999, longitude := .num 10, name := "Nowhere".toList,
    country := "Unknown".toList, admin1 := none }

/-- Counterexample to Claim C2 as stated: a geocoding response whose top
result has latitude 999 resolves successfully (no range validation), its
latitude is outside [-90, 90], and the subsequent weather fetch fails with
the latitude range error, without a network call. -/
theorem claim_c2_counterexample :
    (getCoordinates (some "Nowhere".toList) (.resp c2Resp)).1 = .ok c2Rec ∧
    ¬ ((999 : ℚ) ≤ 90) ∧
    (getWeatherData c2Rec.latitude c2Rec.longitude wnetEmpty).1
      = .error errInvalidLatitude ∧
    (getWeatherData c2Rec.latitude c2Rec.longitude wnetEmpty).2 = false :=
  ⟨by decide, by decide, by decide, by decide⟩

/-- An in-range geocoding result for the C2 witness. -/
def c2GoodRes : GeoResult :=
  { latitude := some (.num 48), longitude := some (.num 2),
    name := some "Paris".toList, country := some "France".toList, admin1 := none }

def c2GoodResp : GeoResponse := { results := some [c2GoodRes] }

def c2GoodRec : LocationRecord :=
  { latitude := .num 48, longitude := .num 2, name := "Paris".toList,
    country := "France".toList, admin1 := none }

/-- Witness for the amended C2: an in-range resolution feeds a weather fetch
whose coordinate validation passes (the network is reached). -/
theorem claim_c2_witness :
    (getCoordinates (some "Paris".toList) (.resp c2GoodResp)).1 = .ok c2GoodRec ∧
    (getWeatherData c2GoodRec.latitude c2GoodRec.longitude wnetEmpty).2 = true :=
  ⟨by decide,
    claim_c2_amended (some "Paris".toList) (.resp c2GoodResp) c2GoodRec wnetEmpty 48 2
      (by decide) rfl rfl (by decide) (by decide) (by decide) (by decide)⟩

/-- Claim C3, amended: on the resolution path (valid city), NotFoundError is
raised exactly when results are absent or empty; InvalidDataError exactly
when the top result's latitude or longitude is absent, zero or NaN, or its
name is absent or empty (the truthiness test, not mere absence); otherwise a
record is returned copying the top result, with country defaulting to
"Unknown" and the admin region to null/empty when absent (or empty). -/
theorem claim_c3_amended (cityName : Option JSString) (vc : JSString) (r : GeoResponse)
    (hv : validateCityName cityName = .ok vc) :
    (r.results = none →
      getCoordinates cityName (.resp r) = (.error (mkError (msgNoResults vc)), true)) ∧
    (r.results = some [] →
      getCoordinates cityName (.resp r) = (.error (mkError (msgNoResults vc)), true)) ∧
    ∀ res rest, r.results = some (res :: rest) →
      ((truthyNumField res.latitude && truthyNumField res.longitude
          && truthyStrField res.name) = false →
        getCoordinates cityName (.resp r) = (.error errInvalidLocation, true)) ∧
      ((truthyNumField res.latitude && truthyNumField res.longitude
          && truthyStrField res.name) = true →
        getCoordinates cityName (.resp r) =
          (.ok { latitude := res.latitude.getD .nan
                 longitude := res.longitude.getD .nan
                 name := res.name.getD []
                 country := strFieldOr res.country "Unknown".toList
                 admin1 := adminFieldOrNull res.admin1 }, true) ∧
        (res.country = none → strFieldOr res.country "Unknown".toList = "Unknown".toList) ∧
        (res.admin1 = none → adminFieldOrNull res.admin1 = none)) := by
  have hcatchNF : geoCatch (.error (mkError (msgNoResults vc)))
      = .error (mkError (msgNoResults vc)) := by
    simp only [geoCatch]
    rw [if_pos]
    rw [mkError, msgNoResults_includes]
    simp
  have hcatchIL : geoCatch (.error errInvalidLocation) = .error errInvalidLocation := by
    simp only [geoCatch]
    rw [if_pos]
    decide
  refine ⟨?_, ?_, ?_⟩
  · intro hres
    rw [getCoordinates_eq, getCoordinatesInner_noResults cityName vc r hv hres]
    show (geoCatch (.error (mkError (msgNoResults vc))), true) = _
    rw [hcatchNF]
  · intro hres
    rw [getCoordinates_eq, getCoordinatesInner_emptyResults cityName vc r hv hres]
    show (geoCatch (.error (mkError (msgNoResults vc))), true) = _
    rw [hcatchNF]
  · intro res rest hres
    constructor
    · intro hfalse
      rw [getCoordinates_eq, getCoordinatesInner_cons cityName vc r res rest hv hres]
      have hcond : (!truthyNumField res.latitude || !truthyNumField res.longitude
          || !truthyStrField res.name) = true := by
        rcases Bool.and_eq_false_iff.mp hfalse with h | h
        · rcases Bool.and_eq_false_iff.mp h with h2 | h2 <;> simp [h2]
        · simp [h]
      rw [if_pos hcond]
      show (geoCatch (.error errInvalidLocation), true) = _
      rw [hcatchIL]
    · intro htrue
      simp only [Bool.and_eq_true] at htrue
      refine ⟨?_, ?_, ?_⟩
      · rw [getCoordinates_eq, getCoordinatesInner_cons cityName vc r res rest hv hres]
        rw [if_neg (by simp [htrue.1.1, htrue.1.2, htrue.2])]
        rfl
      · intro hc
        simp [strFieldOr, hc]
      · intro hc
        simp [adminFieldOrNull, hc]

/-- The geocoding result refuting C3 as stated: every field is present, yet
the zero latitude is rejected as invalid data. -/
def c3Res : GeoResult :=
  { latitude := some (.num 0), longitude := some (.num 10),
    name := some "Quito".toList, country := none, admin1 := none }

def c3Resp : GeoResponse := { results := some [c3Res] }

/-- Counterexample to Claim C3 as stated: the top result lacks none of
latitude, longitude and name (all three fields are present), yet
getCoordinates fails with InvalidDataError, because the present latitude 0 is
falsy. -/
theorem claim_c3_counterexample :
    c3Res.latitude.isSome = true ∧ c3Res.longitude.isSome = true ∧
    c3Res.name.isSome = true ∧
    getCoordinates (some "Quito".toList) (.resp c3Resp)
      = (.error errInvalidLocation, true) :=
  ⟨rfl, rfl, rfl, by decide⟩

/-- Witness for the amended C3: the NotFound case on an empty result list,
and the success case with concrete data, on concrete responses. -/
theorem claim_c3_witness :
    getCoordinates (some "Paris".toList) (.resp { results := some [] })
      = (.error (mkError (msgNoResults "Paris".toList)), true) ∧
    getCoordinates (some "Paris".toList) (.resp c2GoodResp)
      = (.ok c2GoodRec, true) := by
  constructor
  · exact (claim_c3_amended (some "Paris".toList) "Paris".toList
      { results := some [] } (by decide)).2.1 rfl
  · have h := ((claim_c3_amended (some "Paris".toList) "Paris".toList c2GoodResp
      (by decide)).2.2 c2GoodRes [] rfl).2 (by decide)
    rw [h.1]
    decide

end WeatherWidget
